import Mathlib

/-!
Shallow embedding of `ftp_bigquery_etl.py`, a single-file ETL pipeline:
on a Pub/Sub trigger whose base64-decoded payload is the sentinel
`get_ftp_data`, it downloads yesterday's CSV file from an FTP server,
parses it with pandas, loads it into a BigQuery table, deletes the local
scratch file, and returns "ok"; retrieval failures are caught and mapped
to "failed"; transform/load failures propagate uncaught.

The embedding is pure: external I/O (chdir, FTP, file reads/writes,
BigQuery jobs) is recorded as a trace of `Effect`s, and the outcomes of
the three fallible external steps (FTP retrieval, pandas parsing, the
BigQuery load job) are supplied by a `World` oracle.  Library calls are
modelled at their observable behaviour: `datetime.date - timedelta(1)`
as a Gregorian-calendar decrement, `strftime` via decimal digit strings,
and the two `re` substitutions in `main` as literal-string operations
(faithful to `re.sub`/`re.findall` whenever the interpolated hostname
contains no regex metacharacters, which the patterns of the source rely
on anyway).
-/

namespace Etl

/-- Model of Python `str.__mod__`-free decimal rendering `str(n)` /
`strftime` digit output: Lean's `Nat.repr` produces exactly the decimal
digit characters, via `Nat.toDigits 10`. -/
def natStr (n : Nat) : String := Nat.repr n

/-- Model of `strftime('%d')`-style zero-padding to two digits. -/
def pad2 (n : Nat) : String := if n < 10 then "0" ++ natStr n else natStr n

/-- Model of `datetime.date`: a Gregorian calendar date. -/
structure Date where
  year : Nat
  month : Nat
  day : Nat
deriving Repr, DecidableEq

/-- Gregorian leap-year rule, as implemented by `datetime.date`. -/
def isLeap (y : Nat) : Bool := (y % 4 == 0 && y % 100 != 0) || (y % 400 == 0)

/-- Number of days in a Gregorian month. -/
def daysInMonth (y m : Nat) : Nat :=
  if m = 2 then (if isLeap y then 29 else 28)
  else if m = 4 ∨ m = 6 ∨ m = 9 ∨ m = 11 then 30
  else 31

/-- Model of `date.today() - timedelta(1)` (line 114): the previous
calendar day. -/
def yesterday (d : Date) : Date :=
  if 1 < d.day then ⟨d.year, d.month, d.day - 1⟩
  else if 1 < d.month then ⟨d.year, d.month - 1, daysInMonth d.year (d.month - 1)⟩
  else ⟨d.year - 1, 12, 31⟩

/-- Model of `yesterday.strftime('%d-%m-%Y')` (line 115). -/
def strftimeDMY (d : Date) : String :=
  pad2 d.day ++ "-" ++ pad2 d.month ++ "-" ++ natStr d.year

/-- The directory for storing temporary files (line 21 of the source). -/
def gc_write_dir : String := "/tmp"

/-- Model of `re.findall('[^/]*$', s)[0]` (line 37): the suffix of `s`
after its last `'/'` (the whole of `s` when it has no slash). -/
def lastSegment (s : String) : String :=
  ⟨(s.data.reverse.takeWhile (fun c => c != '/')).reverse⟩

/-- Model of `re.findall('ftp://[^/]*', s)[0]` (line 123): the first
occurrence of the literal `ftp://` together with the longest following
run of non-`'/'` characters; `none` when the string has no match (where
Python's `[0]` would raise `IndexError`). -/
def findFtpMatch : List Char → Option (List Char)
  | [] => none
  | c :: cs =>
    if List.isPrefixOf "ftp://".data (c :: cs) then
      some ("ftp://".data ++ List.takeWhile (fun x => x != '/') (List.drop 6 (c :: cs)))
    else findFtpMatch cs

/-- Model of `re.sub(pat, '', s)` for a literal (metacharacter-free)
pattern: delete the left-to-right non-overlapping occurrences of `pat`.
The counter argument is the number of just-matched characters still to
be skipped without re-matching. -/
def removeAllGo (pat : List Char) : List Char → Nat → List Char
  | [], _ => []
  | _ :: cs, k + 1 => removeAllGo pat cs k
  | c :: cs, 0 =>
    if pat.isPrefixOf (c :: cs) && !pat.isEmpty then
      removeAllGo pat cs (pat.length - 1)
    else c :: removeAllGo pat cs 0

/-- Delete every left-to-right occurrence of `pat` from `s`. -/
def removeAll (pat s : List Char) : List Char := removeAllGo pat s 0

/-- Model of `re.sub('/$', '', s)` (line 124): drop one trailing slash. -/
def stripTrailingSlash (l : List Char) : List Char :=
  if l.getLast? = some '/' then l.dropLast else l

/-- Line 123 of the source: `host = re.sub('ftp://', '',
re.findall('ftp://[^/]*', path_to_file)[0])`. -/
def pyHost (path_to_file : String) : String :=
  ⟨removeAll "ftp://".data ((findFtpMatch path_to_file.data).getD [])⟩

/-- Line 124 of the source: `path = re.sub('/$', '',
re.sub(f'ftp://{host}/', '', path_to_file))`, with the interpolated
pattern treated as a literal string. -/
def pyPath (host path_to_file : String) : String :=
  ⟨stripTrailingSlash (removeAll ("ftp://" ++ host ++ "/").data path_to_file.data)⟩

/-- Lines 113-120 of the source: the derived remote file reference
`ftp://{hostname}/{str_yesterday}.csv` stored in
`ftp_configuration['path_to_file']`. -/
def path_to_file (hostname : String) (today : Date) : String :=
  "ftp://" ++ hostname ++ "/" ++ strftimeDMY (yesterday today) ++ ".csv"

/-- Observable external actions of one invocation, in program order. -/
inductive Effect where
  | chdir (dir : String)
  | ftpConnect (host user password : String)
  | openLocal (path : String)
  | ftpRetr (command : String)
  | readFile (path : String)
  | bqSubmit (tableRef location partitioning : String) (clustering : List String)
  | bqWaitResult
  | bqGetTable (tableRef : String)
  | logLoaded (tableId : String) (numRows : Nat)
  | removeFile (path : String)
deriving Repr, DecidableEq

/-- How the FTP retrieval step (lines 36-39) terminates.
`connectFail` covers every exception raised by the `ftplib.FTP(...)`
constructor (unreachable host, refused connection, failed login) —
before any local file is opened.  `retrFail` covers an exception raised
by `retrbinary` (e.g. a 550 file-not-found reply) — after
`open(filename, 'wb')` has already created the local file. -/
inductive FtpOutcome where
  | connectFail
  | retrFail
  | success
deriving Repr, DecidableEq

/-- Oracle for one invocation: the wall-clock date and the outcomes of
the three fallible external steps, plus the row count BigQuery reports
after the load. -/
structure World where
  today : Date
  ftp : FtpOutcome
  transformOk : Bool
  loadOk : Bool
  numRowsAfterLoad : Nat
deriving Repr, DecidableEq

/-- Result of `get_file_ftp`: `ret = none` models an uncaught exception;
`created` lists the absolute paths of local files the call created. -/
structure FtpResult where
  ret : Option String
  trace : List Effect
  created : List String
deriving Repr, DecidableEq

/-- Lines 24-44 of the source.  `cwd` models the process's current
working directory, which is where `open(filename, 'wb')` creates the
local file; the function nevertheless returns
`f'{gc_write_dir}/{filename}'`. -/
def get_file_ftp (cwd host path_to_file user password : String)
    (out : FtpOutcome) : FtpResult :=
  match out with
  | .connectFail => ⟨none, [.ftpConnect host user password], []⟩
  | .retrFail =>
    let filename := lastSegment path_to_file
    ⟨none,
     [.ftpConnect host user password,
      .openLocal (cwd ++ "/" ++ filename),
      .ftpRetr ("RETR " ++ filename)],
     [cwd ++ "/" ++ filename]⟩
  | .success =>
    let filename := lastSegment path_to_file
    ⟨some (gc_write_dir ++ "/" ++ filename),
     [.ftpConnect host user password,
      .openLocal (cwd ++ "/" ++ filename),
      .ftpRetr ("RETR " ++ filename)],
     [cwd ++ "/" ++ filename]⟩

/-- The fixed column schema of `transform_to_dataframe` (lines 57-59). -/
def col_names : List String :=
  ["createdAt", "updatedAt", "shippingDate", "orderId", "productName",
   "productCategory", "metalType", "size", "weight", "quantity", "price",
   "sale", "shippingCost", "orderSum", "orderSource", "city", "status",
   "paymentMethod", "clientId", "userId", "phone", "email", "authPhone"]

/-- The columns forced to `dtype: "str"` in `pd.read_csv` (line 62). -/
def dtype_str_cols : List String :=
  ["quantity", "clientId", "userId", "phone", "authPhone"]

/-- A parsed cell: columns with a `str` dtype override keep the raw
field text verbatim; all other columns go through pandas type
inference, modelled abstractly by tagging the raw text. -/
inductive Cell where
  | text (raw : String)
  | inferred (raw : String)
deriving Repr, DecidableEq

/-- Build the cell of column `name` from the raw field text. -/
def mkCell (name raw : String) : Cell :=
  if dtype_str_cols.contains name then .text raw else .inferred raw

/-- Parse one non-header input line (already split on the `';'`
delimiter) into the 23 cells of the fixed schema; a missing trailing
field is modelled as the empty string (pandas fills NaN). -/
def parseLine (fields : List String) : List Cell :=
  (List.range col_names.length).map fun i =>
    mkCell (col_names.getD i "") (fields.getD i "")

/-- The in-memory table produced by `pd.read_csv`. -/
structure DataFrame where
  columns : List String
  rows : List (List Cell)
deriving Repr, DecidableEq

/-- Lines 47-64 of the source: `pd.read_csv(file_location,
delimiter=";", encoding="cp1251", header=None, names=col_names,
skiprows=1, dtype={...})`.  The file's content is given as its list of
lines, each already split on `';'` (cp1251 decoding and low-level CSV
tokenisation belong to the external parsing engine); `skiprows=1` drops
the first line, `header=None` + `names` fix the 23 columns. -/
def transform_to_dataframe (lines : List (List String)) : DataFrame :=
  ⟨col_names, (lines.drop 1).map parseLine⟩

/-- Lines 67-91 of the source: submit one `load_table_from_dataframe`
job against `f'{project_id}.{dataset_id}.{table_id}'` with day time
partitioning, clustering on `status`, and the hard-coded `location='US'`;
block on `load_job.result()`, then `get_table` and log its row count.
When `ok` is false, `result()` raises after the job was submitted. -/
def load_data_bq (table_id dataset_id project_id : String) (numRows : Nat)
    (ok : Bool) : List Effect :=
  let table_ref := project_id ++ "." ++ dataset_id ++ "." ++ table_id
  if ok then
    [.bqSubmit table_ref "US" "DAY" ["status"],
     .bqWaitResult,
     .bqGetTable table_ref,
     .logLoaded table_id numRows]
  else
    [.bqSubmit table_ref "US" "DAY" ["status"]]

/-- The trigger's key-value attribute set (spec section 6 lists the
required keys; the source reads a subset of them). -/
structure Attributes where
  table_id : String
  dataset_id : String
  project_id : String
  hostname : String
  user : String
  password : String
  location : String
  write_disposition : String
  source_format : String
deriving Repr, DecidableEq

/-- The trigger event.  `data` is the base64-decoded UTF-8 payload
(`base64.b64decode(event['data']).decode('utf-8')`, line 105 — the
decoding envelope is external to the pipeline). -/
structure Event where
  data : String
  attributes : Attributes
deriving Repr, DecidableEq

/-- How one invocation of `main` terminates: a normal `return s`, or an
uncaught exception escaping to the hosting platform. -/
inductive Outcome where
  | ret (s : String)
  | raised
deriving Repr, DecidableEq

/-- Result of one invocation of `main`: its termination, the trace of
external effects, and the local files created during the run. -/
structure RunResult where
  outcome : Outcome
  trace : List Effect
  created : List String
deriving Repr, DecidableEq

/-- Paths removed by `os.remove` during a run. -/
def removedFiles (tr : List Effect) : List String :=
  tr.filterMap fun e =>
    match e with
    | .removeFile p => some p
    | _ => none

/-- Local scratch files still present when the invocation ends:
created but never removed. -/
def residualFiles (r : RunResult) : List String :=
  r.created.filter fun p => !((removedFiles r.trace).contains p)

/-- Locations passed to submitted BigQuery load jobs during a run. -/
def submittedLocations (r : RunResult) : List String :=
  r.trace.filterMap fun e =>
    match e with
    | .bqSubmit _ loc _ _ => some loc
    | _ => none

/-- Lines 94-141 of the source: the `main` entry point.  The
transform step contributes a `readFile` effect (its parsed value is
modelled separately by `transform_to_dataframe`); when
`w.transformOk`/`w.loadOk` is false the corresponding call raises and
the exception escapes `main` uncaught, so `os.remove` is skipped. -/
def main (event : Event) (w : World) : RunResult :=
  if event.data = "get_ftp_data" then
    let attrs := event.attributes
    let p := path_to_file attrs.hostname w.today
    let host := pyHost p
    let path := pyPath host p
    let r := get_file_ftp gc_write_dir host path attrs.user attrs.password w.ftp
    match r.ret with
    | none => ⟨.ret "failed", .chdir gc_write_dir :: r.trace, r.created⟩
    | some source =>
      if w.transformOk then
        if w.loadOk then
          ⟨.ret "ok",
           .chdir gc_write_dir ::
             (r.trace ++ [.readFile source]
               ++ load_data_bq attrs.table_id attrs.dataset_id attrs.project_id
                    w.numRowsAfterLoad true
               ++ [.removeFile source]),
           r.created⟩
        else
          ⟨.raised,
           .chdir gc_write_dir ::
             (r.trace ++ [.readFile source]
               ++ load_data_bq attrs.table_id attrs.dataset_id attrs.project_id
                    w.numRowsAfterLoad false),
           r.created⟩
      else
        ⟨.raised,
         .chdir gc_write_dir :: (r.trace ++ [.readFile source]),
         r.created⟩
  else
    ⟨.ret "ok", [], []⟩

end Etl


namespace Etl

/-- Composition of the source's own derivation steps: the local/remote
filename `get_file_ftp` extracts from the `path` that `main` hands it. -/
def derivedFilename (hostname : String) (today : Date) : String :=
  lastSegment (pyPath (pyHost (path_to_file hostname today))
    (path_to_file hostname today))

/-- Concrete trigger attributes used by witnesses: note the `location`
attribute is `"EU"`. -/
def attrsFix : Attributes :=
  ⟨"T", "D", "P", "h.example.com", "u", "pw", "EU", "WRITE_APPEND", "CSV"⟩

/-- A sentinel-matching trigger event. -/
def eventFix : Event := ⟨"get_ftp_data", attrsFix⟩

/-- A trigger event whose decoded payload is not the sentinel. -/
def eventOther : Event := ⟨"noop", attrsFix⟩

/-- A fixed invocation date at a year boundary. -/
def dateFix : Date := ⟨2024, 1, 1⟩

/-- World where every external step succeeds. -/
def worldOk : World := ⟨dateFix, .success, true, true, 5⟩

/-- World where the FTP constructor/login raises. -/
def worldConnectFail : World := ⟨dateFix, .connectFail, true, true, 5⟩

/-- World where `retrbinary` raises after the local file is opened. -/
def worldRetrFail : World := ⟨dateFix, .retrFail, true, true, 5⟩

/-- World where `transform_to_dataframe` raises. -/
def worldTransformFail : World := ⟨dateFix, .success, false, true, 5⟩

/-- World where the BigQuery load job raises. -/
def worldLoadFail : World := ⟨dateFix, .success, true, false, 5⟩

/-- A two-line file image: a header line and one data row whose
`quantity` field (column index 9) is the string `"007"`. -/
def linesFix : List (List String) :=
  [["c0", "c1", "c2", "c3", "c4", "c5", "c6", "c7", "c8", "c9", "c10",
    "c11", "c12", "c13", "c14", "c15", "c16", "c17", "c18", "c19", "c20",
    "c21", "c22"],
   ["2024-01-01", "2024-01-01", "2024-01-02", "42", "ring", "rings",
    "gold", "17", "3.5", "007", "100", "0", "10", "110", "site", "Kyiv",
    "paid", "card", "0012", "0034", "0671234567", "a at b", "0671234567"]]

end Etl

namespace Etl

/-- String append acts as list append on the underlying data. -/
theorem data_append (a b : String) : (a ++ b).data = a.data ++ b.data := rfl

/-- Strings with equal underlying data are equal. -/
theorem string_eq_of_data {a b : String} (h : a.data = b.data) : a = b := by
  cases a
  cases b
  exact congrArg String.mk h

/-- Rebuilding a string from its own data is the identity. -/
theorem mk_data (s : String) : (⟨s.data⟩ : String) = s := rfl

/-- The head of the last (optional) element is a member of the list. -/
theorem getLastMem (l : List Char) (a : Char) (h : l.getLast? = some a) :
    a ∈ l := by
  have h2 : a ∈ l.getLast? := h ▸ rfl
  obtain ⟨hne, heq⟩ := List.mem_getLast?_eq_getLast h2
  exact heq ▸ List.getLast_mem hne

/-- No digit character rendered by `Nat.digitChar` is a slash. -/
theorem digitChar_ne_slash (d : Nat) : Nat.digitChar d ≠ '/' := by
  rcases Nat.lt_or_ge d 16 with h | h
  · interval_cases d <;> decide
  · have h0 : d ≠ 0 := by omega
    have h1 : d ≠ 1 := by omega
    have h2 : d ≠ 2 := by omega
    have h3 : d ≠ 3 := by omega
    have h4 : d ≠ 4 := by omega
    have h5 : d ≠ 5 := by omega
    have h6 : d ≠ 6 := by omega
    have h7 : d ≠ 7 := by omega
    have h8 : d ≠ 8 := by omega
    have h9 : d ≠ 9 := by omega
    have h10 : d ≠ 10 := by omega
    have h11 : d ≠ 11 := by omega
    have h12 : d ≠ 12 := by omega
    have h13 : d ≠ 13 := by omega
    have h14 : d ≠ 14 := by omega
    have h15 : d ≠ 15 := by omega
    simp [Nat.digitChar, h0, h1, h2, h3, h4, h5, h6, h7, h8, h9, h10,
      h11, h12, h13, h14, h15]

/-- No character produced by the decimal digit renderer is a slash. -/
theorem toDigitsCore_ne_slash (fuel : Nat) :
    ∀ (n : Nat) (ds : List Char), (∀ c ∈ ds, c ≠ '/') →
      ∀ c ∈ Nat.toDigitsCore 10 fuel n ds, c ≠ '/' := by
  induction fuel with
  | zero => intro n ds h; simpa [Nat.toDigitsCore] using h
  | succ fuel ih =>
    intro n ds h
    simp only [Nat.toDigitsCore]
    split
    · intro c hc
      rcases List.mem_cons.mp hc with h1 | h1
      · exact h1 ▸ digitChar_ne_slash _
      · exact h c h1
    · apply ih
      intro c hc
      rcases List.mem_cons.mp hc with h1 | h1
      · exact h1 ▸ digitChar_ne_slash _
      · exact h c h1

/-- Decimal renderings of naturals contain no slash. -/
theorem natStr_ne_slash (n : Nat) : ∀ c ∈ (natStr n).data, c ≠ '/' := by
  have h : (natStr n).data = Nat.toDigits 10 n := rfl
  rw [h]
  exact toDigitsCore_ne_slash _ n [] (by simp)

/-- Slash-freedom is preserved by string append. -/
theorem append_ne_slash {a b : String} (ha : ∀ c ∈ a.data, c ≠ '/')
    (hb : ∀ c ∈ b.data, c ≠ '/') : ∀ c ∈ (a ++ b).data, c ≠ '/' := by
  intro c hc
  rw [data_append] at hc
  rcases List.mem_append.mp hc with h | h
  · exact ha c h
  · exact hb c h

/-- Two-digit zero-padded renderings contain no slash. -/
theorem pad2_ne_slash (n : Nat) : ∀ c ∈ (pad2 n).data, c ≠ '/' := by
  unfold pad2
  split
  · exact append_ne_slash (by decide) (natStr_ne_slash n)
  · exact natStr_ne_slash n

/-- The formatted date contains no slash. -/
theorem strftimeDMY_ne_slash (d : Date) :
    ∀ c ∈ (strftimeDMY d).data, c ≠ '/' := by
  unfold strftimeDMY
  exact append_ne_slash (append_ne_slash (append_ne_slash
    (append_ne_slash (pad2_ne_slash d.day) (by decide))
    (pad2_ne_slash d.month)) (by decide)) (natStr_ne_slash d.year)

/-- The derived remote filename `{DD-MM-YYYY}.csv` contains no slash. -/
theorem strfCsv_ne_slash (d : Date) :
    ∀ c ∈ (strftimeDMY d ++ ".csv").data, c ≠ '/' :=
  append_ne_slash (strftimeDMY_ne_slash d) (by decide)

/-- Taking while a predicate holds of every element of a left factor
distributes over append. -/
theorem takeWhile_append_all {p : Char → Bool} (l1 l2 : List Char)
    (h : ∀ c ∈ l1, p c = true) :
    (l1 ++ l2).takeWhile p = l1 ++ l2.takeWhile p := by
  induction l1 with
  | nil => simp
  | cons c cs ih =>
    have hc : p c = true := h c (by simp)
    simp only [List.cons_append, List.takeWhile_cons, hc, if_true]
    rw [ih fun x hx => h x (by simp [hx])]

/-- A list of slash-free characters is untouched by literal-pattern
deletion when the pattern contains a slash. -/
theorem removeAllGo_no_slash (pat : List Char) (hpat : '/' ∈ pat) :
    ∀ (s : List Char), (∀ c ∈ s, c ≠ '/') → removeAllGo pat s 0 = s := by
  intro s
  induction s with
  | nil => intro h; simp [removeAllGo]
  | cons c cs ih =>
    intro h
    cases hb : pat.isPrefixOf (c :: cs) with
    | true =>
      have hsub : pat ⊆ c :: cs := (List.isPrefixOf_iff_prefix.mp hb).subset
      exact absurd rfl (h '/' (hsub hpat))
    | false =>
      simp [removeAllGo, hb, ih fun x hx => h x (List.mem_cons_of_mem _ hx)]

/-- Skipping exactly the length of a left factor resumes matching on
the right factor. -/
theorem removeAllGo_skip (pat : List Char) (xs rest : List Char) :
    removeAllGo pat (xs ++ rest) xs.length = removeAllGo pat rest 0 := by
  induction xs with
  | nil => simp [removeAll]
  | cons c cs ih => simpa [removeAllGo] using ih

/-- Deleting a pattern from a string that starts with it removes that
leading occurrence. -/
theorem removeAllGo_self_prefix (pat rest : List Char) (hne : pat ≠ []) :
    removeAllGo pat (pat ++ rest) 0 = removeAllGo pat rest 0 := by
  cases pat with
  | nil => exact absurd rfl hne
  | cons p ps =>
    have hpre : (p :: ps).isPrefixOf ((p :: ps) ++ rest) = true := by
      rw [List.isPrefixOf_iff_prefix]
      exact List.prefix_append _ _
    have hcons : (p :: ps) ++ rest = p :: (ps ++ rest) := rfl
    rw [hcons] at hpre
    rw [show ((p :: ps) ++ rest : List Char) = p :: (ps ++ rest) from rfl]
    simp only [removeAllGo, hpre, List.isEmpty_cons, Bool.not_false,
      Bool.and_true, if_true, List.length_cons, Nat.add_sub_cancel]
    exact removeAllGo_skip (p :: ps) ps rest

/-- The first `ftp://[^/]*` match in a string that starts with
`ftp://`. -/
theorem findFtpMatch_eq (rest : List Char) :
    findFtpMatch ("ftp://".data ++ rest)
      = some ("ftp://".data ++ rest.takeWhile (fun x => x != '/')) := by
  have hpre : "ftp://".data.isPrefixOf ('f' :: ("tp://".data ++ rest)) = true := by
    rw [List.isPrefixOf_iff_prefix]
    exact List.prefix_append _ _
  rw [show ("ftp://".data ++ rest : List Char) = 'f' :: ("tp://".data ++ rest)
    from rfl]
  simp only [findFtpMatch, hpre, if_true]
  rw [show (List.drop 6 ('f' :: ("tp://".data ++ rest)) : List Char) = rest
    from rfl]

/-- A slash-free list survives `stripTrailingSlash`. -/
theorem stripTrailingSlash_no_slash (l : List Char)
    (h : ∀ c ∈ l, c ≠ '/') : stripTrailingSlash l = l := by
  unfold stripTrailingSlash
  split
  · next hg => exact absurd rfl (h '/' (getLastMem l '/' hg))
  · rfl

/-- A slash-free string is its own last segment. -/
theorem lastSegment_no_slash (s : String) (h : ∀ c ∈ s.data, c ≠ '/') :
    lastSegment s = s := by
  unfold lastSegment
  have ht : s.data.reverse.takeWhile (fun c => c != '/') = s.data.reverse := by
    rw [List.takeWhile_eq_self_iff]
    intro x hx
    simpa [bne_iff_ne] using h x (List.mem_reverse.mp hx)
  rw [ht, List.reverse_reverse]

/-- The last segment never contains a slash. -/
theorem lastSegment_ne_slash (s : String) :
    ∀ c ∈ (lastSegment s).data, c ≠ '/' := by
  intro c hc
  have hc2 : c ∈ s.data.reverse.takeWhile (fun c => c != '/') :=
    List.mem_reverse.mp hc
  have := List.mem_takeWhile_imp hc2
  simpa [bne_iff_ne] using this

/-- Directory components before the final slash are discarded by
`lastSegment`. -/
theorem lastSegment_append (dir name : String)
    (h : ∀ c ∈ name.data, c ≠ '/') :
    lastSegment (dir ++ "/" ++ name) = name := by
  unfold lastSegment
  have hdata : (dir ++ "/" ++ name).data
      = dir.data ++ '/' :: name.data := by
    simp [data_append]
  rw [hdata]
  have hrev : (dir.data ++ '/' :: name.data).reverse
      = name.data.reverse ++ '/' :: dir.data.reverse := by
    simp
  rw [hrev]
  rw [takeWhile_append_all _ _ fun c hc => by
    simpa [bne_iff_ne] using h c (List.mem_reverse.mp hc)]
  simp only [List.takeWhile_cons]
  simp

end Etl

namespace Etl

/-- For a slash-free hostname, line 123 recovers exactly the hostname
from the derived reference. -/
theorem pyHost_path_to_file (H : String) (d : Date)
    (hh : ∀ c ∈ H.data, c ≠ '/') : pyHost (path_to_file H d) = H := by
  unfold pyHost path_to_file
  have hdata : ("ftp://" ++ H ++ "/" ++ strftimeDMY (yesterday d) ++ ".csv").data
      = "ftp://".data
        ++ (H.data ++ '/' :: (strftimeDMY (yesterday d) ++ ".csv").data) := by
    simp [data_append]
  rw [hdata, findFtpMatch_eq]
  rw [takeWhile_append_all _ _ fun c hc => by simpa [bne_iff_ne] using hh c hc]
  simp only [List.takeWhile_cons]
  rw [show (('/' : Char) != '/') = false from rfl]
  simp only [Bool.false_eq_true, if_false, List.append_nil, Option.getD_some]
  rw [removeAll, removeAllGo_self_prefix _ _ (by decide),
    removeAllGo_no_slash _ (by decide) _ hh]

/-- Line 124 recovers exactly the derived remote filename
`{DD-MM-YYYY}.csv` from the reference, for any hostname: the stripped
pattern ends in `'/'` and the date part is slash-free. -/
theorem pyPath_path_to_file (H : String) (d : Date) :
    pyPath H (path_to_file H d) = strftimeDMY (yesterday d) ++ ".csv" := by
  unfold pyPath path_to_file
  have hdata : ("ftp://" ++ H ++ "/" ++ strftimeDMY (yesterday d) ++ ".csv").data
      = ("ftp://" ++ H ++ "/").data
        ++ (strftimeDMY (yesterday d) ++ ".csv").data := by
    simp [data_append]
  have hpat : ('/' : Char) ∈ ("ftp://" ++ H ++ "/").data := by
    rw [data_append]
    exact List.mem_append.mpr (Or.inr (by decide))
  rw [hdata, removeAll,
    removeAllGo_self_prefix _ _ (List.ne_nil_of_mem hpat),
    removeAllGo_no_slash _ hpat _ (strfCsv_ne_slash (yesterday d)),
    stripTrailingSlash_no_slash _ (strfCsv_ne_slash (yesterday d))]

/-- For a slash-free hostname, the filename the retrieval step actually
uses is exactly `{DD-MM-YYYY of yesterday}.csv`. -/
theorem derivedFilename_eq (H : String) (d : Date)
    (hh : ∀ c ∈ H.data, c ≠ '/') :
    derivedFilename H d = strftimeDMY (yesterday d) ++ ".csv" := by
  unfold derivedFilename
  rw [pyHost_path_to_file H d hh, pyPath_path_to_file H d]
  exact lastSegment_no_slash _ (strfCsv_ne_slash (yesterday d))

end Etl

namespace Etl

/-- A non-sentinel payload: `main` returns "ok" with no effects. -/
theorem main_not_sentinel (e : Event) (w : World)
    (h : e.data ≠ "get_ftp_data") : main e w = ⟨.ret "ok", [], []⟩ := by
  unfold main
  rw [if_neg h]

/-- Sentinel payload, FTP constructor/login raises: caught, "failed",
no local file was created. -/
theorem main_connectFail (e : Event) (w : World)
    (hs : e.data = "get_ftp_data") (hf : w.ftp = .connectFail) :
    main e w = ⟨.ret "failed",
      [.chdir gc_write_dir,
       .ftpConnect (pyHost (path_to_file e.attributes.hostname w.today))
         e.attributes.user e.attributes.password],
      []⟩ := by
  unfold main
  rw [if_pos hs, hf]
  rfl

/-- Sentinel payload, `retrbinary` raises: caught, "failed", but the
local file had already been created by `open(filename, 'wb')`. -/
theorem main_retrFail (e : Event) (w : World)
    (hs : e.data = "get_ftp_data") (hf : w.ftp = .retrFail) :
    main e w = ⟨.ret "failed",
      [.chdir gc_write_dir,
       .ftpConnect (pyHost (path_to_file e.attributes.hostname w.today))
         e.attributes.user e.attributes.password,
       .openLocal (gc_write_dir ++ "/"
         ++ derivedFilename e.attributes.hostname w.today),
       .ftpRetr ("RETR " ++ derivedFilename e.attributes.hostname w.today)],
      [gc_write_dir ++ "/" ++ derivedFilename e.attributes.hostname w.today]⟩ := by
  unfold main derivedFilename
  rw [if_pos hs, hf]
  rfl

/-- Sentinel payload, retrieval succeeds, transform raises: the
exception escapes `main` and the scratch file is not removed. -/
theorem main_transformFail (e : Event) (w : World)
    (hs : e.data = "get_ftp_data") (hf : w.ftp = .success)
    (ht : w.transformOk = false) :
    main e w = ⟨.raised,
      [.chdir gc_write_dir,
       .ftpConnect (pyHost (path_to_file e.attributes.hostname w.today))
         e.attributes.user e.attributes.password,
       .openLocal (gc_write_dir ++ "/"
         ++ derivedFilename e.attributes.hostname w.today),
       .ftpRetr ("RETR " ++ derivedFilename e.attributes.hostname w.today),
       .readFile (gc_write_dir ++ "/"
         ++ derivedFilename e.attributes.hostname w.today)],
      [gc_write_dir ++ "/" ++ derivedFilename e.attributes.hostname w.today]⟩ := by
  unfold main derivedFilename
  rw [if_pos hs, hf]
  simp [get_file_ftp, ht]

/-- Sentinel payload, retrieval and transform succeed, the load job
raises: the exception escapes `main` after the job was submitted and
the scratch file is not removed. -/
theorem main_loadFail (e : Event) (w : World)
    (hs : e.data = "get_ftp_data") (hf : w.ftp = .success)
    (ht : w.transformOk = true) (hl : w.loadOk = false) :
    main e w = ⟨.raised,
      [.chdir gc_write_dir,
       .ftpConnect (pyHost (path_to_file e.attributes.hostname w.today))
         e.attributes.user e.attributes.password,
       .openLocal (gc_write_dir ++ "/"
         ++ derivedFilename e.attributes.hostname w.today),
       .ftpRetr ("RETR " ++ derivedFilename e.attributes.hostname w.today),
       .readFile (gc_write_dir ++ "/"
         ++ derivedFilename e.attributes.hostname w.today),
       .bqSubmit (e.attributes.project_id ++ "." ++ e.attributes.dataset_id
           ++ "." ++ e.attributes.table_id) "US" "DAY" ["status"]],
      [gc_write_dir ++ "/" ++ derivedFilename e.attributes.hostname w.today]⟩ := by
  unfold main derivedFilename
  rw [if_pos hs, hf]
  simp [get_file_ftp, ht, hl, load_data_bq]

/-- Sentinel payload, every step succeeds: full effect trace ending in
the scratch-file removal, and `main` returns "ok". -/
theorem main_success (e : Event) (w : World)
    (hs : e.data = "get_ftp_data") (hf : w.ftp = .success)
    (ht : w.transformOk = true) (hl : w.loadOk = true) :
    main e w = ⟨.ret "ok",
      [.chdir gc_write_dir,
       .ftpConnect (pyHost (path_to_file e.attributes.hostname w.today))
         e.attributes.user e.attributes.password,
       .openLocal (gc_write_dir ++ "/"
         ++ derivedFilename e.attributes.hostname w.today),
       .ftpRetr ("RETR " ++ derivedFilename e.attributes.hostname w.today),
       .readFile (gc_write_dir ++ "/"
         ++ derivedFilename e.attributes.hostname w.today),
       .bqSubmit (e.attributes.project_id ++ "." ++ e.attributes.dataset_id
           ++ "." ++ e.attributes.table_id) "US" "DAY" ["status"],
       .bqWaitResult,
       .bqGetTable (e.attributes.project_id ++ "." ++ e.attributes.dataset_id
           ++ "." ++ e.attributes.table_id),
       .logLoaded e.attributes.table_id w.numRowsAfterLoad,
       .removeFile (gc_write_dir ++ "/"
         ++ derivedFilename e.attributes.hostname w.today)],
      [gc_write_dir ++ "/" ++ derivedFilename e.attributes.hostname w.today]⟩ := by
  unfold main derivedFilename
  rw [if_pos hs, hf]
  simp [get_file_ftp, ht, hl, load_data_bq]

end Etl

namespace Etl

/-- C1: for every trigger whose base64-decoded data is not the exact
sentinel `get_ftp_data`, `main` performs no I/O or side effects and
returns "ok"; in every invocation the only strings `main` can return
are "ok" and "failed", and "failed" arises only on the sentinel path
when the retrieval step raised. -/
theorem main_outcome_contract (e : Event) (w : World) :
    (e.data ≠ "get_ftp_data" → main e w = ⟨.ret "ok", [], []⟩)
    ∧ (∀ s, (main e w).outcome = .ret s → s = "ok" ∨ s = "failed")
    ∧ ((main e w).outcome = .ret "failed"
        → e.data = "get_ftp_data" ∧ w.ftp ≠ .success) := by
  refine ⟨main_not_sentinel e w, ?_, ?_⟩
  · intro s hret
    by_cases hs : e.data = "get_ftp_data"
    · cases hft : w.ftp with
      | connectFail =>
        rw [main_connectFail e w hs hft] at hret
        exact Or.inr (Outcome.ret.inj hret).symm
      | retrFail =>
        rw [main_retrFail e w hs hft] at hret
        exact Or.inr (Outcome.ret.inj hret).symm
      | success =>
        cases hbt : w.transformOk with
        | false =>
          rw [main_transformFail e w hs hft hbt] at hret
          exact absurd hret (by simp)
        | true =>
          cases hbl : w.loadOk with
          | false =>
            rw [main_loadFail e w hs hft hbt hbl] at hret
            exact absurd hret (by simp)
          | true =>
            rw [main_success e w hs hft hbt hbl] at hret
            exact Or.inl (Outcome.ret.inj hret).symm
    · rw [main_not_sentinel e w hs] at hret
      exact Or.inl (Outcome.ret.inj hret).symm
  · intro hret
    by_cases hs : e.data = "get_ftp_data"
    · refine ⟨hs, ?_⟩
      intro hsucc
      cases hbt : w.transformOk with
      | false =>
        rw [main_transformFail e w hs hsucc hbt] at hret
        exact absurd hret (by simp)
      | true =>
        cases hbl : w.loadOk with
        | false =>
          rw [main_loadFail e w hs hsucc hbt hbl] at hret
          exact absurd hret (by simp)
        | true =>
          rw [main_success e w hs hsucc hbt hbl] at hret
          exact absurd (Outcome.ret.inj hret) (by decide)
    · rw [main_not_sentinel e w hs] at hret
      exact absurd (Outcome.ret.inj hret) (by decide)

/-- C1 witness: a concrete non-sentinel trigger is a no-op returning
"ok". -/
theorem main_outcome_contract_witness :
    main eventOther worldOk = ⟨.ret "ok", [], []⟩ :=
  (main_outcome_contract eventOther worldOk).1 (by decide)

/-- C2: for every sentinel trigger (with a well-formed, slash-free
hostname attribute), the derived remote reference is
`ftp://{hostname}/{DD-MM-YYYY of yesterday}.csv`, exactly one FTP fetch
is performed per invocation, every RETR command names exactly
yesterday's dated csv file (never anything from the trigger), and an
invocation on 2024-01-01 derives `31-12-2023`. -/
theorem main_remote_ref (e : Event) (w : World)
    (hs : e.data = "get_ftp_data")
    (hh : ∀ c ∈ e.attributes.hostname.data, c ≠ '/') :
    path_to_file e.attributes.hostname w.today
        = "ftp://" ++ e.attributes.hostname ++ "/"
          ++ strftimeDMY (yesterday w.today) ++ ".csv"
    ∧ (main e w).trace.countP (fun eff => match eff with
        | .ftpConnect _ _ _ => true
        | _ => false) = 1
    ∧ (∀ cmd, .ftpRetr cmd ∈ (main e w).trace
        → cmd = "RETR " ++ strftimeDMY (yesterday w.today) ++ ".csv")
    ∧ strftimeDMY (yesterday ⟨2024, 1, 1⟩) = "31-12-2023" := by
  refine ⟨rfl, ?_, ?_, by decide⟩
  · cases hft : w.ftp with
    | connectFail =>
      rw [main_connectFail e w hs hft]
      simp [List.countP_cons]
    | retrFail =>
      rw [main_retrFail e w hs hft]
      simp [List.countP_cons]
    | success =>
      cases hbt : w.transformOk with
      | false =>
        rw [main_transformFail e w hs hft hbt]
        simp [List.countP_cons]
      | true =>
        cases hbl : w.loadOk with
        | false =>
          rw [main_loadFail e w hs hft hbt hbl]
          simp [List.countP_cons]
        | true =>
          rw [main_success e w hs hft hbt hbl]
          simp [List.countP_cons]
  · intro cmd hmem
    have hfn : derivedFilename e.attributes.hostname w.today
        = strftimeDMY (yesterday w.today) ++ ".csv" :=
      derivedFilename_eq _ _ hh
    cases hft : w.ftp with
    | connectFail =>
      rw [main_connectFail e w hs hft] at hmem
      simp at hmem
    | retrFail =>
      rw [main_retrFail e w hs hft] at hmem
      simp at hmem
      rw [hmem, hfn, String.append_assoc]
    | success =>
      cases hbt : w.transformOk with
      | false =>
        rw [main_transformFail e w hs hft hbt] at hmem
        simp at hmem
        rw [hmem, hfn, String.append_assoc]
      | true =>
        cases hbl : w.loadOk with
        | false =>
          rw [main_loadFail e w hs hft hbt hbl] at hmem
          simp at hmem
          rw [hmem, hfn, String.append_assoc]
        | true =>
          rw [main_success e w hs hft hbt hbl] at hmem
          simp at hmem
          rw [hmem, hfn, String.append_assoc]

/-- C2 witness: on the concrete fixture the invocation performs
exactly one FTP fetch. -/
theorem main_remote_ref_witness :
    (main eventFix worldOk).trace.countP (fun eff => match eff with
      | .ftpConnect _ _ _ => true
      | _ => false) = 1 :=
  (main_remote_ref eventFix worldOk (by decide) (by decide)).2.1

end Etl

namespace Etl

/-- C3 (counterexample): a retrieval failure during the RETR transfer
itself (e.g. remote file not found) makes `main` return "failed" and
yet leaves a residual scratch file, because `open(filename, 'wb')` had
already created it — refuting the claim that every retrieval exception
leaves no residual scratch file. -/
theorem main_retrFail_residual :
    (main eventFix worldRetrFail).outcome = .ret "failed"
    ∧ residualFiles (main eventFix worldRetrFail) = ["/tmp/31-12-2023.csv"] := by
  constructor
  · decide
  · decide

/-- C3 (amended): whenever the retrieval step raises, `main` returns
"failed" and neither the transform nor the load step is ever attempted;
no residual scratch file is left when the failure happens at
connect/login time (before the local file is opened), while a failure
during the transfer itself leaves the already-created scratch file
behind. -/
theorem main_retrieval_failure (e : Event) (w : World)
    (hs : e.data = "get_ftp_data") (hf : w.ftp ≠ .success) :
    (main e w).outcome = .ret "failed"
    ∧ (∀ p, .readFile p ∉ (main e w).trace)
    ∧ (∀ ref loc pt cl, .bqSubmit ref loc pt cl ∉ (main e w).trace)
    ∧ (w.ftp = .connectFail → residualFiles (main e w) = [])
    ∧ (w.ftp = .retrFail → residualFiles (main e w) ≠ []) := by
  cases hft : w.ftp with
  | connectFail =>
    rw [main_connectFail e w hs hft]
    refine ⟨rfl, ?_, ?_, ?_, ?_⟩
    · intro p; simp
    · intro ref loc pt cl; simp
    · intro hyp; simp [residualFiles, removedFiles]
    · intro hyp; cases hyp
  | retrFail =>
    rw [main_retrFail e w hs hft]
    refine ⟨rfl, ?_, ?_, ?_, ?_⟩
    · intro p; simp
    · intro ref loc pt cl; simp
    · intro hyp; cases hyp
    · intro hyp; simp [residualFiles, removedFiles]
  | success => exact absurd hft hf

/-- C3 witness (amended theorem): on the concrete connect-failure
fixture the run returns "failed" with no residual file. -/
theorem main_retrieval_failure_witness :
    (main eventFix worldConnectFail).outcome = .ret "failed"
    ∧ residualFiles (main eventFix worldConnectFail) = [] :=
  ⟨(main_retrieval_failure eventFix worldConnectFail (by decide) (by decide)).1,
   (main_retrieval_failure eventFix worldConnectFail (by decide)
     (by decide)).2.2.2.1 rfl⟩

/-- C4 (counterexample): the trigger's `location` attribute is "EU",
yet the submitted load job's location is the hard-coded "US" — refuting
the claim that the target location passed to the load job comes from
the trigger's attribute set. -/
theorem load_location_ignores_trigger :
    submittedLocations (main eventFix worldOk) = ["US"]
    ∧ eventFix.attributes.location = "EU"
    ∧ ("US" : String) ≠ "EU" := by
  refine ⟨by decide, rfl, by decide⟩

/-- C4 (amended): the project, dataset and table of every submitted
load job are taken verbatim from the trigger attributes as
`{project_id}.{dataset_id}.{table_id}`, while the job location is the
constant "US" fixed by the pipeline, independent of every trigger
attribute (the trigger's `location` attribute is ignored). -/
theorem load_target_identity (e : Event) (w : World) :
    ∀ ref loc pt cl, .bqSubmit ref loc pt cl ∈ (main e w).trace →
      ref = e.attributes.project_id ++ "." ++ e.attributes.dataset_id
            ++ "." ++ e.attributes.table_id
      ∧ loc = "US" := by
  intro ref loc pt cl hmem
  by_cases hs : e.data = "get_ftp_data"
  · cases hft : w.ftp with
    | connectFail =>
      rw [main_connectFail e w hs hft] at hmem
      simp at hmem
    | retrFail =>
      rw [main_retrFail e w hs hft] at hmem
      simp at hmem
    | success =>
      cases hbt : w.transformOk with
      | false =>
        rw [main_transformFail e w hs hft hbt] at hmem
        simp at hmem
      | true =>
        cases hbl : w.loadOk with
        | false =>
          rw [main_loadFail e w hs hft hbt hbl] at hmem
          simp at hmem
          exact ⟨hmem.1, hmem.2.1⟩
        | true =>
          rw [main_success e w hs hft hbt hbl] at hmem
          simp at hmem
          exact ⟨hmem.1, hmem.2.1⟩
  · rw [main_not_sentinel e w hs] at hmem
    simp at hmem

/-- C4 witness (amended theorem): instantiated on the fixture's
submitted job. -/
theorem load_target_identity_witness :
    ("P.D.T" : String) = eventFix.attributes.project_id ++ "."
        ++ eventFix.attributes.dataset_id ++ "." ++ eventFix.attributes.table_id
    ∧ ("US" : String) = "US" :=
  load_target_identity eventFix worldOk "P.D.T" "US" "DAY" ["status"] (by decide)

/-- C5: the transformer yields exactly the 23 fixed named columns in
schema order, one parsed row per non-header input line (the first line
is skipped), and the five `str`-dtype columns — quantity (index 9),
clientId (18), userId (19), phone (20), authPhone (22) — keep the raw
field text verbatim. -/
theorem transform_schema (lines : List (List String)) (h : lines ≠ []) :
    (transform_to_dataframe lines).columns = col_names
    ∧ col_names.length = 23
    ∧ (transform_to_dataframe lines).rows.length + 1 = lines.length
    ∧ ∀ fields ∈ lines.drop 1,
        parseLine fields ∈ (transform_to_dataframe lines).rows
        ∧ (parseLine fields).getD 9 (.text "") = .text (fields.getD 9 "")
        ∧ (parseLine fields).getD 18 (.text "") = .text (fields.getD 18 "")
        ∧ (parseLine fields).getD 19 (.text "") = .text (fields.getD 19 "")
        ∧ (parseLine fields).getD 20 (.text "") = .text (fields.getD 20 "")
        ∧ (parseLine fields).getD 22 (.text "") = .text (fields.getD 22 "") := by
  refine ⟨rfl, by decide, ?_, ?_⟩
  · have hpos : 0 < lines.length := List.length_pos.mpr h
    simp only [transform_to_dataframe, List.length_map, List.length_drop]
    omega
  · intro fields hmem
    exact ⟨List.mem_map_of_mem parseLine hmem, rfl, rfl, rfl, rfl, rfl⟩

/-- C5 witness: on a concrete two-line file the quantity value "007"
survives verbatim as text. -/
theorem transform_schema_witness :
    (transform_to_dataframe linesFix).columns = col_names
    ∧ (parseLine (linesFix.getD 1 [])).getD 9 (.text "")
        = .text ((linesFix.getD 1 []).getD 9 "")
    ∧ (linesFix.getD 1 []).getD 9 "" = "007" :=
  ⟨(transform_schema linesFix (by decide)).1,
   ((transform_schema linesFix (by decide)).2.2.2 (linesFix.getD 1 [])
     (by decide)).2.1,
   by decide⟩

end Etl

namespace Etl

/-- C6: on a fully successful sentinel invocation the effect trace is
exactly: chdir, one FTP fetch, one read of the scratch file, a single
load-job submission against `{project_id}.{dataset_id}.{table_id}` with
day time-partitioning, clustering on `status` and the fixed location
"US", a blocking wait for job completion, then a re-fetch of the table
metadata and the report of its row count, and finally the scratch-file
removal. -/
theorem loader_contract (e : Event) (w : World)
    (hs : e.data = "get_ftp_data") (hf : w.ftp = .success)
    (ht : w.transformOk = true) (hl : w.loadOk = true) :
    (main e w).trace =
      [.chdir gc_write_dir,
       .ftpConnect (pyHost (path_to_file e.attributes.hostname w.today))
         e.attributes.user e.attributes.password,
       .openLocal (gc_write_dir ++ "/"
         ++ derivedFilename e.attributes.hostname w.today),
       .ftpRetr ("RETR " ++ derivedFilename e.attributes.hostname w.today),
       .readFile (gc_write_dir ++ "/"
         ++ derivedFilename e.attributes.hostname w.today),
       .bqSubmit (e.attributes.project_id ++ "." ++ e.attributes.dataset_id
           ++ "." ++ e.attributes.table_id) "US" "DAY" ["status"],
       .bqWaitResult,
       .bqGetTable (e.attributes.project_id ++ "." ++ e.attributes.dataset_id
           ++ "." ++ e.attributes.table_id),
       .logLoaded e.attributes.table_id w.numRowsAfterLoad,
       .removeFile (gc_write_dir ++ "/"
         ++ derivedFilename e.attributes.hostname w.today)] := by
  rw [main_success e w hs hf ht hl]

/-- C6 witness: the fixture's successful run submits exactly one job,
against the fixture's fully-qualified table, and waits before
re-fetching metadata. -/
theorem loader_contract_witness :
    (main eventFix worldOk).trace.countP (fun eff => match eff with
      | .bqSubmit _ _ _ _ => true
      | _ => false) = 1 := by
  rw [loader_contract eventFix worldOk rfl rfl rfl rfl]
  decide

/-- C7: when retrieval succeeded but the transform or the load step
raises, the exception escapes `main` uncaught — `main` returns no
string at all — and the scratch-file deletion is skipped, leaking the
scratch file. -/
theorem main_transform_load_failure (e : Event) (w : World)
    (hs : e.data = "get_ftp_data") (hf : w.ftp = .success)
    (hfail : w.transformOk = false ∨ w.loadOk = false) :
    (main e w).outcome = .raised
    ∧ (∀ s, (main e w).outcome ≠ .ret s)
    ∧ (∀ p, .removeFile p ∉ (main e w).trace)
    ∧ residualFiles (main e w) ≠ [] := by
  rcases hfail with ht | hl
  · rw [main_transformFail e w hs hf ht]
    refine ⟨rfl, ?_, ?_, ?_⟩
    · intro s; simp
    · intro p; simp
    · simp [residualFiles, removedFiles]
  · cases hbt : w.transformOk with
    | false =>
      rw [main_transformFail e w hs hf hbt]
      refine ⟨rfl, ?_, ?_, ?_⟩
      · intro s; simp
      · intro p; simp
      · simp [residualFiles, removedFiles]
    | true =>
      rw [main_loadFail e w hs hf hbt hl]
      refine ⟨rfl, ?_, ?_, ?_⟩
      · intro s; simp
      · intro p; simp
      · simp [residualFiles, removedFiles]

/-- C7 witness: on the concrete transform-failure fixture the
invocation ends abnormally and the scratch file is leaked. -/
theorem main_transform_load_failure_witness :
    (main eventFix worldTransformFail).outcome = .raised
    ∧ residualFiles (main eventFix worldTransformFail) ≠ [] :=
  ⟨(main_transform_load_failure eventFix worldTransformFail rfl rfl
      (Or.inl rfl)).1,
   (main_transform_load_failure eventFix worldTransformFail rfl rfl
      (Or.inl rfl)).2.2.2⟩

/-- C8: when retrieval, transform and load all succeed, the last effect
before `main` returns "ok" is the deletion of the local scratch file,
which leaves no residual file; and the cleanup state is reached only
along this all-success sentinel path — no other path ever removes a
file. -/
theorem main_cleanup_on_success (e : Event) (w : World)
    (hs : e.data = "get_ftp_data") (hf : w.ftp = .success)
    (ht : w.transformOk = true) (hl : w.loadOk = true) :
    ((main e w).outcome = .ret "ok"
      ∧ (main e w).trace.getLast? = some (.removeFile (gc_write_dir ++ "/"
          ++ derivedFilename e.attributes.hostname w.today))
      ∧ residualFiles (main e w) = [])
    ∧ ∀ (e2 : Event) (w2 : World) (p : String),
        .removeFile p ∈ (main e2 w2).trace →
          e2.data = "get_ftp_data" ∧ w2.ftp = .success
          ∧ w2.transformOk = true ∧ w2.loadOk = true := by
  constructor
  · rw [main_success e w hs hf ht hl]
    refine ⟨rfl, rfl, ?_⟩
    simp [residualFiles, removedFiles]
  · intro e2 w2 p hmem
    by_cases hs2 : e2.data = "get_ftp_data"
    · cases hft : w2.ftp with
      | connectFail =>
        rw [main_connectFail e2 w2 hs2 hft] at hmem
        simp at hmem
      | retrFail =>
        rw [main_retrFail e2 w2 hs2 hft] at hmem
        simp at hmem
      | success =>
        cases hbt : w2.transformOk with
        | false =>
          rw [main_transformFail e2 w2 hs2 hft hbt] at hmem
          simp at hmem
        | true =>
          cases hbl : w2.loadOk with
          | false =>
            rw [main_loadFail e2 w2 hs2 hft hbt hbl] at hmem
            simp at hmem
          | true => exact ⟨hs2, rfl, rfl, rfl⟩
    · rw [main_not_sentinel e2 w2 hs2] at hmem
      simp at hmem

/-- C8 witness: the fixture's successful run ends with the removal of
its scratch file and leaves nothing behind. -/
theorem main_cleanup_on_success_witness :
    (main eventFix worldOk).outcome = .ret "ok"
    ∧ residualFiles (main eventFix worldOk) = [] :=
  ⟨(main_cleanup_on_success eventFix worldOk rfl rfl rfl rfl).1.1,
   (main_cleanup_on_success eventFix worldOk rfl rfl rfl rfl).1.2.2⟩

end Etl

namespace Etl

/-- C9: `get_file_ftp` creates the local file at a path relative to the
current working directory, while its return value is always the
absolute `/tmp/{basename}`; the returned path names the file actually
written exactly when the working directory is `/tmp`, which `main`
establishes by `os.chdir` as its first effect before retrieval. -/
theorem get_file_ftp_paths (cwd host pt u pw : String) :
    (get_file_ftp cwd host pt u pw .success).ret
        = some (gc_write_dir ++ "/" ++ lastSegment pt)
    ∧ (get_file_ftp cwd host pt u pw .success).created
        = [cwd ++ "/" ++ lastSegment pt]
    ∧ ((gc_write_dir ++ "/" ++ lastSegment pt)
        ∈ (get_file_ftp cwd host pt u pw .success).created ↔ cwd = gc_write_dir)
    ∧ ∀ (e : Event) (w : World), e.data = "get_ftp_data"
        → (main e w).trace.head? = some (.chdir gc_write_dir) := by
  refine ⟨rfl, rfl, ?_, ?_⟩
  · constructor
    · intro hmem
      simp only [get_file_ftp, List.mem_singleton] at hmem
      have hdat : (gc_write_dir ++ "/" ++ lastSegment pt).data
          = (cwd ++ "/" ++ lastSegment pt).data := congrArg String.data hmem
      rw [data_append, data_append, data_append, data_append] at hdat
      have h1 : gc_write_dir.data ++ ("/").data
          = cwd.data ++ ("/").data := List.append_cancel_right hdat
      exact (string_eq_of_data (List.append_cancel_right h1)).symm
    · intro hcwd
      rw [hcwd]
      simp [get_file_ftp]
  · intro e w hsent
    cases hft : w.ftp with
    | connectFail => rw [main_connectFail e w hsent hft]; rfl
    | retrFail => rw [main_retrFail e w hsent hft]; rfl
    | success =>
      cases hbt : w.transformOk with
      | false => rw [main_transformFail e w hsent hft hbt]; rfl
      | true =>
        cases hbl : w.loadOk with
        | false => rw [main_loadFail e w hsent hft hbt hbl]; rfl
        | true => rw [main_success e w hsent hft hbt hbl]; rfl

/-- C9 witness: with working directory `/home/app` the file is created
at `/home/app/b.csv` but the function still returns `/tmp/b.csv`; and
the sentinel fixture run starts with `chdir /tmp`. -/
theorem get_file_ftp_paths_witness :
    (get_file_ftp "/home/app" "h" "a/b.csv" "u" "pw" .success).ret
        = some "/tmp/b.csv"
    ∧ (get_file_ftp "/home/app" "h" "a/b.csv" "u" "pw" .success).created
        = ["/home/app/b.csv"]
    ∧ (main eventFix worldOk).trace.head? = some (.chdir "/tmp") := by
  refine ⟨?_, ?_, ?_⟩
  · rw [(get_file_ftp_paths "/home/app" "h" "a/b.csv" "u" "pw").1]
    decide
  · rw [(get_file_ftp_paths "/home/app" "h" "a/b.csv" "u" "pw").2.1]
    decide
  · exact (get_file_ftp_paths "/tmp" "h" "x" "u" "pw").2.2.2 eventFix worldOk rfl

/-- C10: `get_file_ftp` uses only the final path segment of
`path_to_file`, both in the `RETR` command sent to the server and as
the local filename: the segment contains no slash, and any directory
components of the remote path are discarded. -/
theorem get_file_ftp_basename (cwd host pt u pw : String) (o : FtpOutcome)
    (ho : o ≠ .connectFail) :
    .ftpRetr ("RETR " ++ lastSegment pt)
        ∈ (get_file_ftp cwd host pt u pw o).trace
    ∧ .openLocal (cwd ++ "/" ++ lastSegment pt)
        ∈ (get_file_ftp cwd host pt u pw o).trace
    ∧ (∀ c ∈ (lastSegment pt).data, c ≠ '/')
    ∧ ∀ (dir name : String), (∀ c ∈ name.data, c ≠ '/')
        → lastSegment (dir ++ "/" ++ name) = name := by
  refine ⟨?_, ?_, lastSegment_ne_slash pt, lastSegment_append⟩
  · cases o with
    | connectFail => exact absurd rfl ho
    | retrFail => simp [get_file_ftp]
    | success => simp [get_file_ftp]
  · cases o with
    | connectFail => exact absurd rfl ho
    | retrFail => simp [get_file_ftp]
    | success => simp [get_file_ftp]

/-- C10 witness: a remote path with directory components is reduced to
its basename for both the RETR command and the local file. -/
theorem get_file_ftp_basename_witness :
    lastSegment ("dir/sub" ++ "/" ++ "b.csv") = "b.csv"
    ∧ .ftpRetr ("RETR " ++ lastSegment "dir/sub/b.csv")
        ∈ (get_file_ftp "/tmp" "h" "dir/sub/b.csv" "u" "pw" .success).trace :=
  ⟨(get_file_ftp_basename "/tmp" "h" "dir/sub/b.csv" "u" "pw" .success
      (by decide)).2.2.2 "dir/sub" "b.csv" (by decide),
   (get_file_ftp_basename "/tmp" "h" "dir/sub/b.csv" "u" "pw" .success
      (by decide)).1⟩

end Etl
